import Mathlib

/-!
Verification of the IOTUnified dual-path telemetry system against its
natural-language specification.  The Python sources are shallowly embedded:
dictionaries become insertion-ordered association lists, byte strings become
`List Nat`, wall-clock timestamps become `Nat` parameters, and values computed
from `random` / `math` floating point are abstracted by environment functions
(no claim inspects those values).
-/

namespace IOTUnified

/-! ## Association-list helpers (Python `dict` semantics)

Python dictionaries are insertion ordered; key assignment replaces the value
in place for an existing key and appends a new entry otherwise; `del` removes
the entry. -/

def lookupA {α : Type} : List (String × α) → String → Option α
  | [], _ => none
  | (k', v) :: rest, k => if k' = k then some v else lookupA rest k

def setA {α : Type} : List (String × α) → String → α → List (String × α)
  | [], k, v => [(k, v)]
  | (k', v') :: rest, k, v =>
      if k' = k then (k, v) :: rest else (k', v') :: setA rest k v

def eraseA {α : Type} : List (String × α) → String → List (String × α)
  | [], _ => []
  | (k', v') :: rest, k =>
      if k' = k then rest else (k', v') :: eraseA rest k

theorem lookupA_setA {α : Type} (m : List (String × α)) (k k' : String) (v : α) :
    lookupA (setA m k v) k' = if k = k' then some v else lookupA m k' := by
  induction m with
  | nil =>
      by_cases h : k = k' <;> simp [setA, lookupA, h]
  | cons hd tl ih =>
      obtain ⟨k₀, v₀⟩ := hd
      by_cases h₀ : k₀ = k
      · subst h₀
        by_cases h : k₀ = k' <;> simp [setA, lookupA, h]
      · by_cases h : k₀ = k'
        · subst h
          have hkk : ¬ k = k₀ := fun hc => h₀ hc.symm
          simp [setA, lookupA, h₀, hkk]
        · simp [setA, lookupA, h₀, h, ih]

theorem lookupA_eraseA_ne {α : Type} (m : List (String × α)) (k k' : String)
    (h : k ≠ k') : lookupA (eraseA m k) k' = lookupA m k' := by
  induction m with
  | nil => simp [eraseA]
  | cons hd tl ih =>
      obtain ⟨k₀, v₀⟩ := hd
      by_cases h₀ : k₀ = k
      · subst h₀
        have : ¬ k₀ = k' := fun hc => h hc
        simp [eraseA, lookupA, this]
      · simp [eraseA, lookupA, h₀, ih]

theorem lookupA_eraseA_self {α : Type} (m : List (String × α)) (k : String)
    (hnd : (m.map Prod.fst).Nodup) : lookupA (eraseA m k) k = none := by
  induction m with
  | nil => simp [eraseA, lookupA]
  | cons hd tl ih =>
      obtain ⟨k₀, v₀⟩ := hd
      simp only [List.map_cons, List.nodup_cons] at hnd
      by_cases h₀ : k₀ = k
      · subst h₀
        -- the remaining tail holds no entry for k₀
        have : ∀ (t : List (String × α)), k₀ ∉ t.map Prod.fst →
            lookupA t k₀ = none := by
          intro t
          induction t with
          | nil => intro _; simp [lookupA]
          | cons h₂ t₂ ih₂ =>
              obtain ⟨ka, va⟩ := h₂
              intro hmem
              simp only [List.map_cons, List.mem_cons] at hmem
              push_neg at hmem
              have hne : ¬ ka = k₀ := fun hc => hmem.1 hc.symm
              simp [lookupA, hne, ih₂ hmem.2]
        simpa [eraseA] using this tl hnd.1
      · simp [eraseA, lookupA, h₀, ih hnd.2]

/-! ## JSON-style values

The host registry, the LwM2M payloads and the FDI parameter maps all carry
JSON scalar values.  Numeric sensor readings in the sources are floating-point
expressions of wall-clock time and `random`; they are abstracted by
environment functions supplying a `JVal` per generated slot. -/

inductive JVal : Type
  | num (q : Int)
  | str (s : String)
  | boolean (b : Bool)
  deriving DecidableEq

/-! ## Sparkplug B host (src/sparkplug-host/main.py) -/

/-- One metric dictionary as produced by `SparkplugBHost._parse_sparkplug_payload`
(name / value / datatype / timestamp). -/
structure HostMetric where
  name : String
  value : JVal
  datatype : String
  timestamp : Nat
  deriving DecidableEq

/-- Stored metric entry of a device record (`{"value":…, "datatype":…, "timestamp":…}`). -/
structure HostMetricEntry where
  value : JVal
  datatype : String
  timestamp : Nat
  deriving DecidableEq

/-- Device record kept in `SparkplugBHost.devices`.  The source stores ISO
timestamp strings from `datetime.now()`; they are modelled as `Nat` instants. -/
structure HostDevice where
  device_id : String
  device_type : String
  status : String
  birth_time : Nat
  last_seen : Nat
  death_time : Option Nat
  metrics : List (String × HostMetricEntry)
  deriving DecidableEq

/-- Embeds the device-type extraction at the top of `_handle_device_data` /
`_handle_device_birth` (src/sparkplug-host/main.py:315-320, 388-393):
`device_type = "industrial_sensor"`, and if `"-" in device_id` take
`device_id.split("-")[1]`.  Python's `str.split` on a one-character separator
is mirrored on the character list. -/
def splitOnChar (c : Char) : List Char → List (List Char)
  | [] => [[]]
  | x :: xs =>
      let r := splitOnChar c xs
      if x = c then [] :: r
      else
        match r with
        | [] => [[x]]
        | y :: ys => (x :: y) :: ys

def deviceTypeOf (device_id : String) : String :=
  let parts := splitOnChar '-' device_id.data
  if 2 ≤ parts.length then String.mk (parts.getD 1 []) else "industrial_sensor"

/-- Embeds `SparkplugBHost._parse_sparkplug_payload`
(src/sparkplug-host/main.py:466-621).  The source ignores the payload bytes
entirely (they are only used for a log line) and generates a fixed list of
metric names and datatypes from the device type; the numeric values and the
value-dependent `device_health` strings are computed from wall-clock time and
`random`, abstracted here by `env : Nat → JVal` supplying the i-th generated
value.  Metric timestamps are the current time in ms. -/
def parseSparkplugPayload (deviceType : String) (payload : List Nat)
    (timestamp : Nat) (env : Nat → JVal) : List HostMetric :=
  let _ := payload
  if deviceType = "temperature_sensor" then
    [⟨"temperature", env 0, "double", timestamp⟩,
     ⟨"humidity", env 1, "double", timestamp⟩,
     ⟨"battery_level", env 2, "double", timestamp⟩,
     ⟨"network_rssi", env 3, "float", timestamp⟩,
     ⟨"device_health", env 4, "string", timestamp⟩]
  else if deviceType = "pressure_sensor" then
    [⟨"pressure", env 0, "double", timestamp⟩,
     ⟨"differential_pressure", env 1, "double", timestamp⟩,
     ⟨"battery_level", env 2, "double", timestamp⟩,
     ⟨"network_rssi", env 3, "float", timestamp⟩,
     ⟨"device_health", env 4, "string", timestamp⟩]
  else if deviceType = "flow_sensor" then
    [⟨"flow_rate", env 0, "double", timestamp⟩,
     ⟨"totalizer", env 1, "double", timestamp⟩,
     ⟨"battery_level", env 2, "double", timestamp⟩,
     ⟨"network_rssi", env 3, "float", timestamp⟩,
     ⟨"device_health", env 4, "string", timestamp⟩]
  else if deviceType = "level_sensor" then
    [⟨"level", env 0, "double", timestamp⟩,
     ⟨"level_secondary", env 1, "double", timestamp⟩,
     ⟨"battery_level", env 2, "double", timestamp⟩,
     ⟨"network_rssi", env 3, "float", timestamp⟩,
     ⟨"device_health", env 4, "string", timestamp⟩]
  else if deviceType = "pump_monitor" then
    [⟨"pump_speed", env 0, "double", timestamp⟩,
     ⟨"power_consumption", env 1, "double", timestamp⟩,
     ⟨"pump_efficiency", env 2, "double", timestamp⟩,
     ⟨"discharge_pressure", env 3, "double", timestamp⟩,
     ⟨"temperature", env 4, "double", timestamp⟩,
     ⟨"vibration_x", env 5, "double", timestamp⟩,
     ⟨"vibration_y", env 6, "double", timestamp⟩,
     ⟨"vibration_z", env 7, "double", timestamp⟩,
     ⟨"device_health", env 8, "string", timestamp⟩]
  else if deviceType = "compressor_monitor" then
    [⟨"discharge_pressure", env 0, "double", timestamp⟩,
     ⟨"compression_ratio", env 1, "double", timestamp⟩,
     ⟨"oil_temperature", env 2, "double", timestamp⟩,
     ⟨"load_factor", env 3, "double", timestamp⟩,
     ⟨"vibration_x", env 4, "double", timestamp⟩,
     ⟨"vibration_y", env 5, "double", timestamp⟩,
     ⟨"vibration_z", env 6, "double", timestamp⟩,
     ⟨"device_health", env 7, "string", timestamp⟩]
  else if deviceType = "motor_monitor" then
    [⟨"motor_current", env 0, "double", timestamp⟩,
     ⟨"motor_voltage", env 1, "double", timestamp⟩,
     ⟨"power_factor", env 2, "double", timestamp⟩,
     ⟨"bearing_temperature", env 3, "double", timestamp⟩,
     ⟨"vibration_x", env 4, "double", timestamp⟩,
     ⟨"vibration_y", env 5, "double", timestamp⟩,
     ⟨"vibration_z", env 6, "double", timestamp⟩,
     ⟨"device_health", env 7, "string", timestamp⟩]
  else
    [⟨"primary_value", env 0, "double", timestamp⟩,
     ⟨"secondary_value", env 1, "double", timestamp⟩,
     ⟨"device_health", env 2, "string", timestamp⟩]

/-- Store a list of parsed metrics into a device's metric dictionary, one
`metrics[name] = {…}` assignment per metric, in order. -/
def storeMetrics (m : List (String × HostMetricEntry)) (ms : List HostMetric) :
    List (String × HostMetricEntry) :=
  ms.foldl (fun acc met => setA acc met.name ⟨met.value, met.datatype, met.timestamp⟩) m

/-- Embeds `SparkplugBHost._handle_device_data`
(src/sparkplug-host/main.py:385-451).  Parses (generates) the metrics, then
auto-registers the device with status `online` and empty metrics if unknown,
then sets `last_seen`, `status = "online"`, `device_type`, and merges every
metric by name.  The second component collects the MQTT publishes made by the
handler: the source publishes nothing from this handler (no NCMD, no rebirth
request), so it is always `[]`. -/
def handleDeviceData (devices : List (String × HostDevice)) (device_id : String)
    (payload : List Nat) (now : Nat) (env : Nat → JVal) :
    List (String × HostDevice) × List String :=
  let device_type := deviceTypeOf device_id
  let metrics := parseSparkplugPayload device_type payload now env
  let devices1 :=
    match lookupA devices device_id with
    | none => setA devices device_id
        ⟨device_id, device_type, "online", now, now, none, []⟩
    | some _ => devices
  let devices2 :=
    match lookupA devices1 device_id with
    | none => devices1
    | some d => setA devices1 device_id
        { d with last_seen := now, status := "online", device_type := device_type,
                 metrics := storeMetrics d.metrics metrics }
  (devices2, [])

/-- Embeds `SparkplugBHost._handle_device_birth`
(src/sparkplug-host/main.py:312-369): build a fresh metric dictionary from the
parsed (generated) metrics and replace the device record, status `online`. -/
def handleDeviceBirth (devices : List (String × HostDevice)) (device_id : String)
    (payload : List Nat) (now : Nat) (env : Nat → JVal) :
    List (String × HostDevice) :=
  let device_type := deviceTypeOf device_id
  let metrics := parseSparkplugPayload device_type payload now env
  setA devices device_id
    ⟨device_id, device_type, "online", now, now, none, storeMetrics [] metrics⟩

/-- Embeds `SparkplugBHost._handle_device_death`
(src/sparkplug-host/main.py:371-383): if the device is known, set
`status = "offline"` and record `death_time`; nothing else changes — in
particular the stored telemetry metrics are NOT cleared. -/
def handleDeviceDeath (devices : List (String × HostDevice)) (device_id : String)
    (now : Nat) : List (String × HostDevice) :=
  match lookupA devices device_id with
  | none => devices
  | some d => setA devices device_id
      { d with status := "offline", death_time := some now }

/-! ## Binary metric codec — host-side decoder
(`SparkplugPayload.ParseFromString`, src/sparkplug-host/main.py:47-138) -/

/-- Abstraction of a Python float slot: `zero` is the constructor default
`0.0`; `ofBits` holds the little-endian IEEE bytes read from the wire (the
claims never interpret them numerically); `gen i` is the i-th synthetic value
computed from wall-clock time and `hash(data)` in
`_create_synthetic_metrics`. -/
inductive FloatVal : Type
  | zero
  | ofBits (bits : List Nat)
  | gen (i : Nat)
  deriving DecidableEq

/-- One decoded `SparkplugMetric` (src/sparkplug-host/main.py:29-39).  The
constructor initialises every value slot to its zero; `name` and
`string_value` keep the raw bytes (the source decodes utf-8 with
`errors='ignore'`). -/
structure DecMetric where
  name : List Nat
  datatype : Nat
  timestamp : Nat
  int_value : Int
  long_value : Nat
  float_value : FloatVal
  double_value : FloatVal
  boolean_value : Bool
  string_value : List Nat
  deriving DecidableEq

/-- Fresh metric as built at src/sparkplug-host/main.py:75-78. -/
def DecMetric.fresh (name : List Nat) (now : Nat) : DecMetric :=
  ⟨name, 0, now, 0, 0, .zero, .zero, false, []⟩

/-- Decoded payload object: `timestamp` and `seq` are initialised to 0 by
`SparkplugPayload.__init__` and `ParseFromString` never assigns them. -/
structure DecPayload where
  timestamp : Nat
  seq : Nat
  metrics : List DecMetric
  deriving DecidableEq

/-- Little-endian unsigned integer of a byte list (`struct.unpack('<Q', …)`). -/
def leNat (bs : List Nat) : Nat :=
  bs.foldr (fun b acc => acc * 256 + b) 0

/-- Little-endian signed 32-bit integer (`struct.unpack('<i', …)`). -/
def leInt32 (bs : List Nat) : Int :=
  let u := leNat bs
  if u < 2 ^ 31 then (u : Int) else (u : Int) - 2 ^ 32

/-- UTF-8 bytes of an ASCII string (used for the literal metric names the
source assigns). -/
def strBytes (s : String) : List Nat :=
  s.data.map (fun c => c.toNat)

/-- Value parsing of src/sparkplug-host/main.py:86-121, reached only when
`pos + 8 < len(data)`: depending on the declared datatype, a specific tag
byte selects the single value slot; on tag mismatch nothing is consumed.
Returns the updated metric and position. -/
def parseMetricValue (data : List Nat) (pos : Nat) (m : DecMetric) :
    DecMetric × Nat :=
  if m.datatype = 10 then
    if data.getD pos 0 = 0x51 then
      ({ m with double_value := .ofBits ((data.drop (pos + 1)).take 8) }, pos + 9)
    else (m, pos)
  else if m.datatype = 9 then
    if data.getD pos 0 = 0x4d then
      ({ m with float_value := .ofBits ((data.drop (pos + 1)).take 4) }, pos + 5)
    else (m, pos)
  else if m.datatype = 8 then
    if data.getD pos 0 = 0x48 then
      ({ m with long_value := leNat ((data.drop (pos + 1)).take 8) }, pos + 9)
    else (m, pos)
  else if m.datatype = 3 then
    if data.getD pos 0 = 0x50 then
      ({ m with int_value := leInt32 ((data.drop (pos + 1)).take 4) }, pos + 5)
    else (m, pos)
  else if m.datatype = 12 then
    if data.getD pos 0 = 0x7a then
      if pos + 1 < data.length then
        let strLen := data.getD (pos + 1) 0
        if pos + 2 + strLen ≤ data.length then
          ({ m with string_value := (data.drop (pos + 2)).take strLen }, pos + 2 + strLen)
        else (m, pos + 2)
      else (m, pos + 1)
    else (m, pos)
  else if m.datatype = 11 then
    if data.getD pos 0 = 0x70 then
      ({ m with boolean_value := data.getD (pos + 1) 0 ≠ 0 }, pos + 2)
    else (m, pos)
  else (m, pos)

/-- The scanning loop of `ParseFromString` (src/sparkplug-host/main.py:57-125):
while `pos < len(data) - 8`, a `0x0a` byte is taken as a metric-name tag
(length byte, then name bytes); a following `0x20` provides the datatype and a
value parse is attempted; any other byte is skipped.  A `break` abandons the
metric under construction.  The position strictly increases each iteration, so
`data.length + 1` units of fuel suffice. -/
def parseLoop (data : List Nat) (now : Nat) :
    Nat → Nat → List DecMetric → List DecMetric
  | 0, _, acc => acc.reverse
  | fuel + 1, pos, acc =>
      if pos < data.length - 8 then
        if data.getD pos 0 = 0x0a then
          let p1 := pos + 1
          if p1 ≥ data.length then acc.reverse
          else
            let nameLen := data.getD p1 0
            let p2 := p1 + 1
            if p2 + nameLen > data.length then acc.reverse
            else
              let name := (data.drop p2).take nameLen
              let p3 := p2 + nameLen
              let m := DecMetric.fresh name now
              if p3 + 2 < data.length ∧ data.getD p3 0 = 0x20 then
                let m1 := { m with datatype := data.getD (p3 + 1) 0 }
                let p4 := p3 + 2
                if p4 + 8 < data.length then
                  let r := parseMetricValue data p4 m1
                  parseLoop data now fuel r.2 (r.1 :: acc)
                else
                  parseLoop data now fuel p4 (m1 :: acc)
              else
                parseLoop data now fuel p3 (m :: acc)
        else
          parseLoop data now fuel (pos + 1) acc
      else acc.reverse

/-- Embeds `SparkplugPayload._create_synthetic_metrics`
(src/sparkplug-host/main.py:140-185): six fabricated metrics with fixed names;
the five double values are time/hash formulas abstracted as `synth i`. -/
def syntheticMetrics (now : Nat) (synth : Nat → FloatVal) : List DecMetric :=
  [⟨strBytes "Sensors/Temperature", 10, now, 0, 0, .zero, synth 0, false, []⟩,
   ⟨strBytes "Sensors/Pressure", 10, now, 0, 0, .zero, synth 1, false, []⟩,
   ⟨strBytes "Sensors/FlowRate", 10, now, 0, 0, .zero, synth 2, false, []⟩,
   ⟨strBytes "Vibration/X", 10, now, 0, 0, .zero, synth 3, false, []⟩,
   ⟨strBytes "Battery/Level", 10, now, 0, 0, .zero, synth 4, false, []⟩,
   ⟨strBytes "Status/DeviceHealth", 12, now, 0, 0, .zero, .zero, false,
     strBytes "NORMAL"⟩]

/-- Embeds `SparkplugPayload.ParseFromString` (src/sparkplug-host/main.py:47-138)
on a fresh `SparkplugPayload` object.  Data shorter than 8 bytes yields
`False` (parse failure) with no metrics.  Otherwise the scan runs; if it finds
no metric, six synthetic metrics are fabricated and the method still returns
`True`.  The guarded byte accesses never raise, so the `except` fallback
(which would also fabricate synthetic metrics and return `True`) is
unreachable.  The returned payload always carries `timestamp = 0` and
`seq = 0`: the method never assigns them. -/
def parseFromString (data : List Nat) (now : Nat) (synth : Nat → FloatVal) :
    Bool × DecPayload :=
  if data.length < 8 then (false, ⟨0, 0, []⟩)
  else
    let ms := parseLoop data now (data.length + 1) 0 []
    if ms = [] then (true, ⟨0, 0, syntheticMetrics now synth⟩)
    else (true, ⟨0, 0, ms⟩)

/-! ## Binary metric codec — device-side encoder -/

/-- Wire value of one metric: exactly one slot, selected by the datatype tag.
Float/double slots carry their 4/8 little-endian IEEE bytes. -/
inductive WireValue : Type
  | wint (v : Int)
  | wlong (v : Nat)
  | wfloat (bits : List Nat)
  | wdouble (bits : List Nat)
  | wboolean (b : Bool)
  | wstr (s : List Nat)
  deriving DecidableEq

structure WireMetric where
  name : List Nat
  datatype : Nat
  timestamp : Nat
  value : WireValue
  deriving DecidableEq

structure WirePayload where
  timestamp : Nat
  seq : Nat
  uuid : Option (List Nat)
  metrics : List WireMetric
  deriving DecidableEq

/-- Protobuf base-128 varint (fuel-based so it reduces structurally; `n + 1`
units of fuel always suffice since the argument shrinks by a factor 128). -/
def varintF : Nat → Nat → List Nat
  | 0, _ => []
  | fuel + 1, n => if n < 128 then [n] else (n % 128 + 128) :: varintF fuel (n / 128)

def varint (n : Nat) : List Nat := varintF (n + 1) n

/-- Modelled from the spec: the serialised form of one metric as produced by
the generated protobuf bindings (`proto/sparkplug_b_pb2`, not under src/).
Follows §4.2/§6: each metric is schema-tagged and length-prefixed — name
(tag `0x0a`, length byte, bytes), timestamp (tag `0x18`, varint), datatype
(tag `0x20`, byte), then exactly the value slot the datatype selects, under
the tag bytes the host-side parser documents for that slot. -/
def encodeMetric (m : WireMetric) : List Nat :=
  let valueBytes : List Nat :=
    match m.value with
    | .wdouble bits => 0x51 :: bits
    | .wfloat bits => 0x4d :: bits
    | .wlong v => 0x48 :: (List.range 8).map (fun i => v / 256 ^ i % 256)
    | .wint v => 0x50 :: (List.range 4).map
        (fun i => (v % 2 ^ 32).toNat / 256 ^ i % 256)
    | .wboolean b => [0x70, if b then 1 else 0]
    | .wstr s => 0x7a :: s.length :: s
  0x0a :: m.name.length :: m.name ++ 0x18 :: varint m.timestamp
    ++ 0x20 :: m.datatype :: valueBytes

/-- Modelled from the spec: `Payload.SerializeToString` of the generated
protobuf bindings (not under src/).  A header carrying the payload timestamp
(tag `0x08`, varint), the caller-supplied `seq` (tag `0x19`, varint) and the
optional uuid (tag `0x22`, length-prefixed), followed by the ordered,
length-prefixed metric list (tag `0x12` per metric). -/
def encodePayload (p : WirePayload) : List Nat :=
  let uuidBytes : List Nat :=
    match p.uuid with
    | none => []
    | some u => 0x22 :: u.length :: u
  let metricBytes : List Nat :=
    (p.metrics.map (fun m => 0x12 :: (encodeMetric m).length :: encodeMetric m)).flatten
  0x08 :: varint p.timestamp ++ 0x19 :: varint p.seq ++ uuidBytes ++ metricBytes

/-! ## LwM2M server (src/lwm2m-server/server.py)

The registration table `LwM2MServer.devices`.  The nested LwM2M object
subtrees are opaque to the claims (registration replaces them wholesale, an
update merges them at the top level), so records are parametric in the subtree
type `β`.  The source stores `datetime.now().isoformat()` strings; instants
are modelled as `Nat` seconds. -/

/-- Fields read from a registration JSON document via `reg_data.get(…)` with
the source's defaults. -/
structure LwRegData (β : Type) where
  endpoint : Option String
  lifetime : Option Nat
  bindingMode : Option String
  version : Option String
  objects : Option (List (String × β))
  deriving DecidableEq

/-- One registration-table record (`device_info`,
src/lwm2m-server/server.py:160-170). -/
structure LwDevice (β : Type) where
  device_id : String
  endpoint : String
  lifetime : Nat
  binding_mode : String
  lwm2m_version : String
  objects : List (String × β)
  registered_at : Nat
  last_update : Nat
  status : String
  deriving DecidableEq

/-- Embeds `LwM2MServer._handle_device_registration`
(src/lwm2m-server/server.py:155-192): create or replace the record with
`status = "registered"`; the registration response publish and the
`device_registered` event are not inspected by any claim and are omitted. -/
def handleRegistration {β : Type} (devices : List (String × LwDevice β))
    (device_id : String) (rd : LwRegData β) (now : Nat) :
    List (String × LwDevice β) :=
  setA devices device_id
    ⟨device_id, rd.endpoint.getD device_id, rd.lifetime.getD 86400,
     rd.bindingMode.getD "UQ", rd.version.getD "1.2", rd.objects.getD [],
     now, now, "registered"⟩

/-- Embeds `LwM2MServer._handle_device_update`
(src/lwm2m-server/server.py:194-228): unknown devices are ignored; otherwise
the update's `objects` (when present) are merged key-by-key into the record's
`objects`, `last_update` is refreshed and `status` becomes `"active"`. -/
def handleUpdate {β : Type} (devices : List (String × LwDevice β))
    (device_id : String) (objs : Option (List (String × β))) (now : Nat) :
    List (String × LwDevice β) :=
  match lookupA devices device_id with
  | none => devices
  | some d =>
      let d1 :=
        match objs with
        | some os =>
            let merged := os.foldl (fun acc (kv : String × β) => setA acc kv.1 kv.2) d.objects
            { d with objects := merged }
        | none => d
      setA devices device_id { d1 with last_update := now, status := "active" }

/-- Embeds `LwM2MServer._handle_command_response`
(src/lwm2m-server/server.py:230-255): refresh `last_update` when the device is
known; the status is untouched. -/
def handleCommandResponse {β : Type} (devices : List (String × LwDevice β))
    (device_id : String) (now : Nat) : List (String × LwDevice β) :=
  match lookupA devices device_id with
  | none => devices
  | some d => setA devices device_id { d with last_update := now }

/-- Embeds `LwM2MServer._handle_device_deregistration`
(src/lwm2m-server/server.py:257-266): `del self.devices[device_id]` — the
record is REMOVED from the table (the `device_deregistered` event is omitted
as no claim inspects it); an unknown device is a no-op. -/
def handleDeregistration {β : Type} (devices : List (String × LwDevice β))
    (device_id : String) : List (String × LwDevice β) :=
  match lookupA devices device_id with
  | none => devices
  | some _ => eraseA devices device_id

/-- Inbound LwM2M messages dispatched by `_on_mqtt_message`
(src/lwm2m-server/server.py:129-153), each tagged with its arrival instant. -/
inductive LwEvent (β : Type) : Type
  | reg (device_id : String) (rd : LwRegData β)
  | upd (device_id : String) (objs : Option (List (String × β)))
  | resp (device_id : String)
  | dereg (device_id : String)
  deriving DecidableEq

def lwStep {β : Type} (devices : List (String × LwDevice β)) :
    LwEvent β × Nat → List (String × LwDevice β)
  | (.reg id rd, now) => handleRegistration devices id rd now
  | (.upd id objs, now) => handleUpdate devices id objs now
  | (.resp id, now) => handleCommandResponse devices id now
  | (.dereg id, _) => handleDeregistration devices id

/-- Registry reached from the empty table after a trace of timed messages. -/
def lwRun {β : Type} (trace : List (LwEvent β × Nat)) :
    List (String × LwDevice β) :=
  trace.foldl lwStep []

/-! ## FDI communication server
(src/fdi/fdi-local/server/fdi_communication_server.py) -/

/-- One `Function` entry of the parsed writable-parameter structure
(`parse_fdi_writable_parameters`, lines 776-804); parameter metadata is
opaque to the claims (`π`). -/
structure FdiFunction (π : Type) where
  category : String
  description : String
  parameters : List (String × π)
  deriving DecidableEq

/-- One `Command` entry (lines 806-829). -/
structure FdiCommand (π : Type) where
  description : String
  parameters : List (String × π)
  deriving DecidableEq

/-- One `Template` entry (lines 831-865). -/
structure FdiTemplate where
  description : String
  settings : List (String × JVal)
  deriving DecidableEq

/-- The dictionary produced by `parse_fdi_writable_parameters`
(src/fdi/fdi-local/server/fdi_communication_server.py:751-873) from the FDI
device-description XML: `functions`, `commands` and `templates` maps. -/
structure WritableParams (π : Type) where
  functions : List (String × FdiFunction π)
  commands : List (String × FdiCommand π)
  templates : List (String × FdiTemplate)
  deriving DecidableEq

/-- The writable check of `_set_device_parameters_method` (lines 890-907): a
parameter name is writable iff it appears in some function's parameter map or
in some command's parameter map. -/
def isWritableIn {π : Type} (wp : WritableParams π) (name : String) : Bool :=
  wp.functions.any (fun f => (lookupA f.2.parameters name).isSome) ||
    wp.commands.any (fun c => (lookupA c.2.parameters name).isSome)

/-- The claim-level writable set, as the spec words it: the name appears in
any `functions[*].parameters` or `commands[*].parameters`. -/
def writableSpec {π : Type} (wp : WritableParams π) (name : String) : Prop :=
  (∃ f ∈ wp.functions, (lookupA f.2.parameters name).isSome = true) ∨
    (∃ c ∈ wp.commands, (lookupA c.2.parameters name).isSome = true)

/-- Result of `_set_device_parameters_method`: the validated parameters, the
command forwarded to the device (name and parameters), and the response
status string. -/
structure SetParamsResult where
  validated : List (String × JVal)
  command : Option (String × List (String × JVal))
  response : String
  deriving DecidableEq

/-- Embeds `_set_device_parameters_method`
(src/fdi/fdi-local/server/fdi_communication_server.py:875-926): every entry of
the parsed parameter document is kept iff its name is writable; if any
parameter was validated, exactly the validated map is sent to the device as a
`set_configuration` command and the method reports success, otherwise nothing
is sent and it reports an error. -/
def setDeviceParametersMethod {π : Type} (wp : WritableParams π)
    (params : List (String × JVal)) : SetParamsResult :=
  let validated := params.foldl
    (fun acc pv => if isWritableIn wp pv.1 then acc ++ [pv] else acc) []
  if validated.isEmpty then ⟨validated, none, "error"⟩
  else ⟨validated, some ("set_configuration", validated), "success"⟩

/-! ## Device-side sequence counters -/

/-- Embeds the sequence handling of
`HighPerformanceDeviceSimulator._create_high_frequency_telemetry_payload`
(src/device-simulator/main.py:502-682): `payload.seq = self.sparkplug_seq`
and afterwards `self.sparkplug_seq += 1` — no modulo.  Returns the emitted
seq and the next counter state; the counter starts at 0 (line 95). -/
def mainSimStep (s : Nat) : Nat × Nat := (s, s + 1)

/-- Embeds `SmartBreakerSimulator._send_sparkplug_telemetry`
(src/device-simulator/smart_breaker_simulator.py:534-587):
`payload.seq = self.sparkplug_seq`, then
`self.sparkplug_seq = (self.sparkplug_seq + 1) % 256`; the counter starts at 0
(line 171). -/
def breakerStep (s : Nat) : Nat × Nat := (s, (s + 1) % 256)

/-- Both birth builders set `payload.seq = 0`
(src/device-simulator/main.py:324, smart_breaker_simulator.py:873). -/
def birthSeq : Nat := 0

/-- Seq carried by the i-th DDATA (0-based) when the counter starts at `s`. -/
def nthSeq (step : Nat → Nat × Nat) (s : Nat) : Nat → Nat
  | 0 => (step s).1
  | n + 1 => nthSeq step (step s).2 n

/-! ## LwM2M bulk batching (device side)
(`HighPerformanceDeviceSimulator.lwm2m_management_thread`,
src/device-simulator/main.py:749-806) -/

structure BulkState (op : Type) where
  pending : List op
  lastSend : Nat
  deriving DecidableEq

/-- The bulk envelope `{bulk_operations, device_id, bulk_size, timestamp}`
(src/device-simulator/main.py:784-789). -/
structure BulkEnvelope (op : Type) where
  bulk_operations : List op
  device_id : String
  bulk_size : Nat
  timestamp : Nat
  deriving DecidableEq

/-- One iteration of the bulk loop at instant `t` (milliseconds): the freshly
created operation is appended; when the batch holds at least `bulk_size = 10`
operations or at least `bulk_interval = 50` ms passed since the last emission,
one envelope carrying the whole batch is published and the batch and timer
reset. -/
def bulkStep {op : Type} (deviceId : String) (s : BulkState op) (t : Nat)
    (o : op) : BulkState op × Option (BulkEnvelope op) :=
  let pending := s.pending ++ [o]
  if 10 ≤ pending.length ∨ 50 ≤ t - s.lastSend then
    (⟨[], t⟩, some ⟨pending, deviceId, pending.length, t⟩)
  else
    (⟨pending, s.lastSend⟩, none)

/-- Run the bulk loop over a list of (instant, operation) iterations,
collecting every published envelope in order. -/
def bulkRun {op : Type} (deviceId : String) (s : BulkState op) :
    List (Nat × op) → BulkState op × List (BulkEnvelope op)
  | [] => (s, [])
  | (t, o) :: rest =>
      let r := bulkStep deviceId s t o
      let rr := bulkRun deviceId r.1 rest
      (rr.1, r.2.toList ++ rr.2)

/-! ## Helper lemmas -/

theorem mem_setA {α : Type} {m : List (String × α)} {k : String} {v : α}
    {x : String × α} (h : x ∈ setA m k v) : x = (k, v) ∨ x ∈ m := by
  induction m with
  | nil => simpa [setA] using h
  | cons hd tl ih =>
      obtain ⟨k₀, v₀⟩ := hd
      by_cases h₀ : k₀ = k
      · subst h₀
        simp only [setA, List.mem_cons] at h
        rw [if_pos trivial] at h
        rcases List.mem_cons.mp h with h | h
        · exact Or.inl h
        · exact Or.inr (List.mem_cons_of_mem _ h)
      · simp only [setA, if_neg h₀, List.mem_cons] at h
        rcases h with h | h
        · exact Or.inr (by simp [h])
        · rcases ih h with h' | h'
          · exact Or.inl h'
          · exact Or.inr (List.mem_cons_of_mem _ h')

theorem mem_eraseA {α : Type} {m : List (String × α)} {k : String}
    {x : String × α} (h : x ∈ eraseA m k) : x ∈ m := by
  induction m with
  | nil => simp [eraseA] at h
  | cons hd tl ih =>
      obtain ⟨k₀, v₀⟩ := hd
      by_cases h₀ : k₀ = k
      · subst h₀
        rw [eraseA, if_pos rfl] at h
        exact List.mem_cons_of_mem _ h
      · simp only [eraseA, if_neg h₀, List.mem_cons] at h
        rcases h with h | h
        · simp [h]
        · exact List.mem_cons_of_mem _ (ih h)

theorem lookupA_mem {α : Type} {m : List (String × α)} {k : String} {v : α}
    (h : lookupA m k = some v) : (k, v) ∈ m := by
  induction m with
  | nil => simp [lookupA] at h
  | cons hd tl ih =>
      obtain ⟨k₀, v₀⟩ := hd
      by_cases h₀ : k₀ = k
      · subst h₀
        rw [lookupA, if_pos rfl] at h
        simp [(Option.some.inj h).symm]
      · rw [lookupA, if_neg h₀] at h
        exact List.mem_cons_of_mem _ (ih h)

/-- The decoded payload object always carries `seq = 0` and `timestamp = 0`:
`ParseFromString` never assigns either field. -/
theorem parseFromString_header (data : List Nat) (now : Nat)
    (synth : Nat → FloatVal) :
    (parseFromString data now synth).2.seq = 0 ∧
      (parseFromString data now synth).2.timestamp = 0 := by
  unfold parseFromString
  by_cases h : data.length < 8
  · simp [h]
  · simp only [h, if_false]
    split <;> simp

/-- The metric generator never reads the payload bytes. -/
theorem parseSparkplugPayload_payload_irrel (deviceType : String)
    (p₁ p₂ : List Nat) (timestamp : Nat) (env : Nat → JVal) :
    parseSparkplugPayload deviceType p₁ timestamp env =
      parseSparkplugPayload deviceType p₂ timestamp env := rfl

theorem nthSeq_mainSimStep (s n : Nat) : nthSeq mainSimStep s n = s + n := by
  induction n generalizing s with
  | zero => simp [nthSeq, mainSimStep]
  | succ n ih =>
      show nthSeq mainSimStep (s + 1) n = s + (n + 1)
      rw [ih]
      omega

theorem nthSeq_breakerStep (s n : Nat) (hs : s < 256) :
    nthSeq breakerStep s n = (s + n) % 256 := by
  induction n generalizing s with
  | zero => simp [nthSeq, breakerStep, Nat.mod_eq_of_lt hs]
  | succ n ih =>
      show nthSeq breakerStep ((s + 1) % 256) n = (s + (n + 1)) % 256
      rw [ih _ (Nat.mod_lt _ (by omega))]
      omega

theorem foldl_append_filter {α : Type} (p : α → Bool) (xs acc : List α) :
    xs.foldl (fun a x => if p x then a ++ [x] else a) acc =
      acc ++ xs.filter p := by
  induction xs generalizing acc with
  | nil => simp
  | cons x xs ih =>
      by_cases h : p x
      · simp [List.foldl_cons, h, ih, List.filter_cons]
      · simp [List.foldl_cons, h, ih, List.filter_cons]

theorem isWritableIn_iff {π : Type} (wp : WritableParams π) (k : String) :
    isWritableIn wp k = true ↔ writableSpec wp k := by
  simp [isWritableIn, writableSpec, List.any_eq_true]

/-! ## Concrete inputs used by counterexamples and witnesses -/

/-- Environment supplying generated metric values (their content is irrelevant
to every claim). -/
def env0 : Nat → JVal := fun _ => .num 0

/-- Environment supplying synthetic double values. -/
def synth0 : Nat → FloatVal := fun i => .gen i

/-- Sixteen zero bytes: long enough to pass the 8-byte minimum, containing no
`0x0a` metric-name tag. -/
def zeros16 : List Nat := List.replicate 16 0

def dev0 : HostDevice :=
  ⟨"device-temperature_sensor-001", "temperature_sensor", "online", 10, 10,
   none, [("temperature", ⟨.num 21, "double", 10⟩)]⟩

def devices0 : List (String × HostDevice) := [("device-temperature_sensor-001", dev0)]

/-- A well-formed telemetry payload with `seq = 1` and one double metric. -/
def pRT : WirePayload :=
  ⟨1234, 1, none,
   [⟨strBytes "Sensors/Temperature", 10, 1234, .wdouble [1, 2, 3, 4, 5, 6, 7, 8]⟩]⟩

/-- A DDATA payload whose `seq` (5) differs from any expected value 0. -/
def pGap : WirePayload := ⟨2000, 5, none, []⟩

def lwRegB : LwRegData Unit := ⟨none, some 60, none, none, none⟩

def lwTrace0 : List (LwEvent Unit × Nat) := [(.reg "dev-B" lwRegB, 0)]

def lwDevB : LwDevice Unit := ⟨"dev-B", "dev-B", 60, "UQ", "1.2", [], 0, 0, "registered"⟩

def lwDevices0 : List (String × LwDevice Unit) := [("dev-B", lwDevB)]

def wpEx : WritableParams Unit :=
  ⟨[("protection_settings", ⟨"Protection", "", [("overcurrent_pickup", ())]⟩)],
   [("set_protection", ⟨"", [("ground_fault_pickup", ())]⟩)],
   []⟩

def paramsEx : List (String × JVal) :=
  [("overcurrent_pickup", .num 120), ("serial_number", .str "X")]

/-! ## C1 — host-side DDATA sequence validation -/

/-- Formalisation of claim C1's mismatch branch at one input: a DDATA whose
`seq` differs from the expected value must leave the device `stale`, leave its
metrics untouched, and cause exactly one publish (the NCMD rebirth request).
The claim's `expected_seq` table does not exist in the host at all, so the
expected value is a parameter of the statement. -/
def claimC1MismatchAt (devices : List (String × HostDevice)) (id : String)
    (p : WirePayload) (expected : Nat) (now : Nat) (env : Nat → JVal) : Prop :=
  p.seq ≠ expected →
    ((lookupA (handleDeviceData devices id (encodePayload p) now env).1 id).map
        (fun d => d.status) = some "stale" ∧
      (lookupA (handleDeviceData devices id (encodePayload p) now env).1 id).map
        (fun d => d.metrics) = (lookupA devices id).map (fun d => d.metrics) ∧
      (handleDeviceData devices id (encodePayload p) now env).2.length = 1)

/-- Claim C1 is false on the code: receiving a DDATA with `seq = 5` while 0
is expected, the host neither marks the device stale (it stays `online`), nor
discards the payload (the generated metrics are merged), nor publishes any
NCMD rebirth request (the handler publishes nothing). -/
theorem C1_counterexample :
    ¬ claimC1MismatchAt devices0 "device-temperature_sensor-001" pGap 0 2000 env0 := by
  intro h
  have h2 := h (by decide)
  exact absurd h2.1 (by decide)

/-- Claim C1 amended (what `SparkplugBHost._handle_device_data` actually
does): every received DDATA is applied unconditionally — the handler keeps no
expected-sequence state, publishes nothing (no NCMD rebirth request ever), and
always leaves the device with status `"online"`. -/
theorem C1_amended_theorem (devices : List (String × HostDevice)) (id : String)
    (payload : List Nat) (now : Nat) (env : Nat → JVal) :
    (handleDeviceData devices id payload now env).2 = [] ∧
      (lookupA (handleDeviceData devices id payload now env).1 id).map
        (fun d => d.status) = some "online" := by
  unfold handleDeviceData
  cases h : lookupA devices id with
  | none => simp [h, lookupA_setA]
  | some d => simp [h, lookupA_setA]

/-! ## C2 — device-side sequence numbering -/

/-- Formalisation of claim C2 over the first `n + 1` emitted DDATA sequence
numbers `f 0, f 1, …`: the first DDATA after a birth carries `seq = 1` and
each next one carries `(previous + 1) mod 256`. -/
def claimC2On (f : Nat → Nat) (n : Nat) : Prop :=
  f 0 = 1 ∧ ∀ i < n, f (i + 1) = (f i + 1) % 256

/-- Claim C2 is false on the code: in both simulators the first DDATA carries
`seq = 0` (the counter starts at 0 and is incremented only after the payload
is built), and in `main.py` the counter is never reduced mod 256 — the 257th
DDATA carries `seq = 256`. -/
theorem C2_counterexample :
    ¬ claimC2On (nthSeq mainSimStep 0) 256 ∧
      ¬ claimC2On (nthSeq breakerStep 0) 1 ∧
      nthSeq mainSimStep 0 256 = 256 := by
  refine ⟨?_, ?_, by rw [nthSeq_mainSimStep]⟩
  · intro h
    have h1 := h.1
    rw [nthSeq_mainSimStep] at h1
    omega
  · intro h
    have h1 := h.1
    rw [nthSeq_breakerStep 0 0 (by omega)] at h1
    omega

/-- Claim C2 amended: both simulators emit DBIRTH with `seq = 0` and start the
data counter at 0, so the first DDATA also carries `seq = 0`; the smart
breaker's i-th DDATA carries `i mod 256`, while `main.py`'s i-th DDATA carries
`i` un-wrapped (the counter is incremented without any modulo). -/
theorem C2_amended_theorem :
    birthSeq = 0 ∧ (∀ i, nthSeq mainSimStep 0 i = i) ∧
      (∀ i, nthSeq breakerStep 0 i = i % 256) := by
  refine ⟨rfl, fun i => ?_, fun i => ?_⟩
  · rw [nthSeq_mainSimStep]; omega
  · rw [nthSeq_breakerStep 0 i (by omega)]; omega

/-! ## C3 — codec round trip -/

/-- Formalisation of claim C3 at one payload: decoding the encoder's bytes
succeeds and reproduces the payload's timestamp, `seq`, and the ordered metric
names, datatypes and timestamps.  (Value preservation is not even required
here, which only makes the refutation below stronger.) -/
def roundTripPreserves (p : WirePayload) (now : Nat) (synth : Nat → FloatVal) : Prop :=
  (parseFromString (encodePayload p) now synth).1 = true ∧
    (parseFromString (encodePayload p) now synth).2.timestamp = p.timestamp ∧
    (parseFromString (encodePayload p) now synth).2.seq = p.seq ∧
    (parseFromString (encodePayload p) now synth).2.metrics.map (fun m => m.name) =
      p.metrics.map (fun m => m.name) ∧
    (parseFromString (encodePayload p) now synth).2.metrics.map (fun m => m.datatype) =
      p.metrics.map (fun m => m.datatype) ∧
    (parseFromString (encodePayload p) now synth).2.metrics.map (fun m => m.timestamp) =
      p.metrics.map (fun m => m.timestamp)

/-- Claim C3 is false on the code: for the well-formed payload `pRT`
(`seq = 1`, one double metric), the host-side decoder returns a payload with
`seq = 0` — `ParseFromString` never reads the header fields — so
`decode(encode(p)) ≠ p`. -/
theorem C3_counterexample : ¬ roundTripPreserves pRT 5000 synth0 := by
  intro h
  exact absurd h.2.2.1 (by decide)

/-- Claim C3 amended: the host-side decoder loses the payload header — for
every payload, decoding the encoded bytes yields `seq = 0` and
`timestamp = 0`, and every decoded metric is stamped with the receiver's
wall-clock time instead of the encoded metric timestamp; hence the round trip
fails for every payload with nonzero `seq`. -/
theorem C3_amended_theorem (p : WirePayload) (now : Nat) (synth : Nat → FloatVal) :
    (parseFromString (encodePayload p) now synth).2.seq = 0 ∧
      (parseFromString (encodePayload p) now synth).2.timestamp = 0 ∧
      (p.seq ≠ 0 → ¬ roundTripPreserves p now synth) := by
  obtain ⟨hs, ht⟩ := parseFromString_header (encodePayload p) now synth
  refine ⟨hs, ht, fun hne hrt => ?_⟩
  exact hne (hrt.2.2.1 ▸ hs.symm ▸ rfl)

/-- Witness for C3: the amended theorem applied at the concrete payload
`pRT`. -/
theorem C3_amended_witness :
    (parseFromString (encodePayload pRT) 5000 synth0).2.seq = 0 ∧
      ¬ roundTripPreserves pRT 5000 synth0 := by
  have h := C3_amended_theorem pRT 5000 synth0
  exact ⟨h.1, h.2.2 (by decide)⟩

/-! ## C4 — no fabricated metrics -/

/-- Formalisation of claim C4 at one input: after a single DDATA carrying an
empty byte string (which carries no metrics) arrives for an unknown device,
the registry must hold no metric for that device; and the payload decoder,
applied to bytes in which the scan finds no metric, must either report failure
or report no metrics rather than fabricate synthetic ones. -/
def claimC4At (id : String) (now : Nat) (env : Nat → JVal)
    (data : List Nat) (synth : Nat → FloatVal) : Prop :=
  ((lookupA (handleDeviceData [] id [] now env).1 id).map
      (fun d => d.metrics.map Prod.fst) = some []) ∧
    ((parseFromString data now synth).1 = false ∨
      (parseFromString data now synth).2.metrics = [])

/-- Claim C4 is false on the code: an empty DDATA for the fresh device
`edgeDevice` leaves the registry holding three metrics
(`primary_value`, `secondary_value`, `device_health`) fabricated from the
device type, and decoding 16 zero bytes (no metric present) reports success
with six synthetic metrics. -/
theorem C4_counterexample : ¬ claimC4At "edgeDevice" 77 env0 zeros16 synth0 := by
  intro h
  exact absurd h.1 (by decide)

/-- Claim C4 amended: the host-side parser generates the stored metrics from
the device type alone — the handler's result is identical for any two payload
byte strings — and a decode that finds no metrics in the bytes fabricates the
six synthetic metrics and still reports success (`True`), instead of
surfacing an error. -/
theorem C4_amended_theorem :
    (∀ (devices : List (String × HostDevice)) (id : String) (p₁ p₂ : List Nat)
        (now : Nat) (env : Nat → JVal),
      handleDeviceData devices id p₁ now env = handleDeviceData devices id p₂ now env) ∧
      (∀ (now : Nat) (synth : Nat → FloatVal),
        parseFromString zeros16 now synth = (true, ⟨0, 0, syntheticMetrics now synth⟩) ∧
          (syntheticMetrics now synth).map (fun m => m.name) =
            ["Sensors/Temperature", "Sensors/Pressure", "Sensors/FlowRate",
             "Vibration/X", "Battery/Level", "Status/DeviceHealth"].map strBytes) := by
  constructor
  · intro devices id p₁ p₂ now env
    rfl
  · intro now synth
    exact ⟨rfl, rfl⟩

/-! ## C6 — DDEATH handling -/

/-- Formalisation of claim C6 at one input: after a DDEATH for device `id`,
the record is retained with status `offline` and an empty telemetry-metric
set. -/
def claimC6At (devices : List (String × HostDevice)) (id : String) (now : Nat) : Prop :=
  ((lookupA (handleDeviceDeath devices id now) id).map (fun d => d.status) =
      some "offline") ∧
    ((lookupA (handleDeviceDeath devices id now) id).map (fun d => d.metrics) =
      some [])

/-- Claim C6 is false on the code: a DDEATH for the registered device of
`devices0` sets its status to `offline` but leaves its stored telemetry
metric (`temperature`) in place — `_handle_device_death` never clears
metrics. -/
theorem C6_counterexample :
    ¬ claimC6At devices0 "device-temperature_sensor-001" 99 := by
  intro h
  exact absurd h.2 (by decide)

/-- Claim C6 amended: on DDEATH for a known device the host sets
`status = "offline"` and records the death time, retaining the record —
including all of its telemetry metrics, which are NOT removed; every other
record is untouched. -/
theorem C6_amended_theorem (devices : List (String × HostDevice)) (id : String)
    (now : Nat) (d : HostDevice) (h : lookupA devices id = some d) :
    lookupA (handleDeviceDeath devices id now) id =
        some { d with status := "offline", death_time := some now } ∧
      ∀ k, k ≠ id → lookupA (handleDeviceDeath devices id now) k = lookupA devices k := by
  unfold handleDeviceDeath
  rw [h]
  constructor
  · rw [lookupA_setA]
    simp
  · intro k hk
    rw [lookupA_setA, if_neg (fun hc : id = k => hk hc.symm)]

/-- Witness for C6: the amended theorem applied to the concrete registry
`devices0`. -/
theorem C6_amended_witness :
    lookupA (handleDeviceDeath devices0 "device-temperature_sensor-001" 99)
        "device-temperature_sensor-001" =
      some { dev0 with status := "offline", death_time := some 99 } :=
  (C6_amended_theorem devices0 "device-temperature_sensor-001" 99 dev0 (by decide)).1

/-! ## C10 — auto-registration on DDATA -/

/-- Claim C10: when a DDATA arrives for a `device_id` with no existing
record, `_handle_device_data` creates the record with status `online` (birth
time and last-seen set to the arrival instant, no death time) and then applies
the DDATA metrics to the initially empty metric set — no DBIRTH or
registration is required for the record to exist. -/
theorem C10_theorem (devices : List (String × HostDevice)) (id : String)
    (payload : List Nat) (now : Nat) (env : Nat → JVal)
    (h : lookupA devices id = none) :
    lookupA (handleDeviceData devices id payload now env).1 id =
        some ⟨id, deviceTypeOf id, "online", now, now, none,
          storeMetrics [] (parseSparkplugPayload (deviceTypeOf id) payload now env)⟩ ∧
      (handleDeviceData devices id payload now env).2 = [] := by
  unfold handleDeviceData
  simp [h, lookupA_setA]

/-- Witness for C10: a DDATA for the unknown device `edgeDevice` on an empty
registry creates its record. -/
theorem C10_witness :
    lookupA (handleDeviceData [] "edgeDevice" [] 77 env0).1 "edgeDevice" =
      some ⟨"edgeDevice", deviceTypeOf "edgeDevice", "online", 77, 77, none,
        storeMetrics []
          (parseSparkplugPayload (deviceTypeOf "edgeDevice") [] 77 env0)⟩ :=
  (C10_theorem [] "edgeDevice" [] 77 env0 (by decide)).1

/-! ## C5 — writable-parameter validation -/

theorem setDeviceParametersMethod_eq {π : Type} (wp : WritableParams π)
    (params : List (String × JVal)) :
    setDeviceParametersMethod wp params =
      (let L := params.filter (fun pv => isWritableIn wp pv.1)
       if L.isEmpty then ⟨L, none, "error"⟩
       else ⟨L, some ("set_configuration", L), "success"⟩) := by
  simp only [setDeviceParametersMethod, foldl_append_filter, List.nil_append]

/-- Claim C5: `SetDeviceParameters` applies a parameter iff its name appears
in some function's or some command's parameter list of the device-description
document; the validated set is exactly the writable subset of the request, in
request order; when it is nonempty exactly that subset is forwarded to the
device as a `set_configuration` command with a success response, and when it
is empty nothing is forwarded and an error is reported. -/
theorem C5_theorem {π : Type} (wp : WritableParams π)
    (params : List (String × JVal)) :
    (setDeviceParametersMethod wp params).validated =
        params.filter (fun pv => isWritableIn wp pv.1) ∧
      (∀ kv : String × JVal,
        kv ∈ (setDeviceParametersMethod wp params).validated ↔
          kv ∈ params ∧ writableSpec wp kv.1) ∧
      ((setDeviceParametersMethod wp params).validated = [] →
        (setDeviceParametersMethod wp params).command = none ∧
          (setDeviceParametersMethod wp params).response = "error") ∧
      ((setDeviceParametersMethod wp params).validated ≠ [] →
        (setDeviceParametersMethod wp params).command =
            some ("set_configuration", (setDeviceParametersMethod wp params).validated) ∧
          (setDeviceParametersMethod wp params).response = "success") := by
  by_cases hL : (params.filter (fun pv => isWritableIn wp pv.1)).isEmpty
  · have hrec : setDeviceParametersMethod wp params =
        ⟨params.filter (fun pv => isWritableIn wp pv.1), none, "error"⟩ := by
      rw [setDeviceParametersMethod_eq]
      simp [hL]
    refine ⟨by rw [hrec], fun kv => ?_, fun _ => by rw [hrec]; exact ⟨rfl, rfl⟩,
      fun hne => ?_⟩
    · rw [hrec]
      show kv ∈ params.filter (fun pv => isWritableIn wp pv.1) ↔ _
      rw [List.mem_filter]
      exact and_congr_right fun _ => isWritableIn_iff wp kv.1
    · rw [hrec] at hne
      exact absurd (List.isEmpty_iff.mp hL) hne
  · have hrec : setDeviceParametersMethod wp params =
        ⟨params.filter (fun pv => isWritableIn wp pv.1),
          some ("set_configuration", params.filter (fun pv => isWritableIn wp pv.1)),
          "success"⟩ := by
      rw [setDeviceParametersMethod_eq]
      simp [hL]
    refine ⟨by rw [hrec], fun kv => ?_, fun hemp => ?_, fun _ => by rw [hrec]; exact ⟨rfl, rfl⟩⟩
    · rw [hrec]
      show kv ∈ params.filter (fun pv => isWritableIn wp pv.1) ↔ _
      rw [List.mem_filter]
      exact and_congr_right fun _ => isWritableIn_iff wp kv.1
    · rw [hrec] at hemp
      exact absurd (List.isEmpty_iff.mpr hemp) hL

/-- Witness for C5: on a description declaring `overcurrent_pickup` (function
parameter) and `ground_fault_pickup` (command parameter) as writable, a
request setting `overcurrent_pickup` and the non-writable `serial_number`
applies exactly the writable one and forwards it as the configuration
command. -/
theorem C5_witness :
    (setDeviceParametersMethod wpEx paramsEx).validated =
        [("overcurrent_pickup", JVal.num 120)] ∧
      (setDeviceParametersMethod wpEx paramsEx).command =
        some ("set_configuration", (setDeviceParametersMethod wpEx paramsEx).validated) := by
  have h := C5_theorem wpEx paramsEx
  exact ⟨by rw [h.1]; decide, (h.2.2.2 (by rw [h.1]; decide)).1⟩

/-! ## C7 — lifetime expiry on the management host -/

/-- Formalisation of claim C7 at a trace and an observation instant (all
times in seconds): every registered device satisfies
`now − last_seen ≤ 2 × lifetime_s` or has status `stale` or `offline`. -/
def claimC7At {β : Type} (trace : List (LwEvent β × Nat)) (now : Nat) : Prop :=
  ∀ id dev, lookupA (lwRun trace) id = some dev →
    now - dev.last_update ≤ 2 * dev.lifetime ∨
      dev.status = "stale" ∨ dev.status = "offline"

/-- Claim C7 is false on the code: `dev-B` registers with `lifetime_s = 60`
at t = 0 and receives no update; at t = 121 (beyond 2 × lifetime) its record
still has status `"registered"` — `LwM2MServer` contains no lifetime-expiry
logic at all. -/
theorem C7_counterexample : ¬ claimC7At lwTrace0 121 :=
  fun h => absurd (h "dev-B" lwDevB (by decide)) (by decide)

/-- Every step of the server keeps device statuses inside
`{"registered", "active"}`. -/
theorem lwStep_status {β : Type} (devices : List (String × LwDevice β))
    (e : LwEvent β × Nat)
    (h : ∀ x ∈ devices, x.2.status = "registered" ∨ x.2.status = "active") :
    ∀ y ∈ lwStep devices e, y.2.status = "registered" ∨ y.2.status = "active" := by
  obtain ⟨ev, t⟩ := e
  cases ev with
  | reg id rd =>
      intro y hy
      simp only [lwStep, handleRegistration] at hy
      rcases mem_setA hy with h' | h'
      · subst h'
        exact Or.inl rfl
      · exact h y h'
  | upd id objs =>
      intro y hy
      simp only [lwStep, handleUpdate] at hy
      cases hl : lookupA devices id with
      | none =>
          simp only [hl] at hy
          exact h y hy
      | some d =>
          simp only [hl] at hy
          rcases mem_setA hy with h' | h'
          · subst h'
            exact Or.inr rfl
          · exact h y h'
  | resp id =>
      intro y hy
      simp only [lwStep, handleCommandResponse] at hy
      cases hl : lookupA devices id with
      | none =>
          simp only [hl] at hy
          exact h y hy
      | some d =>
          simp only [hl] at hy
          rcases mem_setA hy with h' | h'
          · subst h'
            exact h (id, d) (lookupA_mem hl)
          · exact h y h'
  | dereg id =>
      intro y hy
      simp only [lwStep, handleDeregistration] at hy
      cases hl : lookupA devices id with
      | none =>
          simp only [hl] at hy
          exact h y hy
      | some d =>
          simp only [hl] at hy
          exact h y (mem_eraseA hy)

theorem lw_status_inv {β : Type} (trace : List (LwEvent β × Nat)) :
    ∀ x ∈ lwRun trace, x.2.status = "registered" ∨ x.2.status = "active" := by
  suffices haux : ∀ (tr : List (LwEvent β × Nat)) (devices : List (String × LwDevice β)),
      (∀ x ∈ devices, x.2.status = "registered" ∨ x.2.status = "active") →
      ∀ x ∈ tr.foldl lwStep devices, x.2.status = "registered" ∨ x.2.status = "active" by
    exact fun x hx => haux trace [] (by simp) x hx
  intro tr
  induction tr with
  | nil =>
      intro devices h x hx
      exact h x hx
  | cons e rest ih =>
      intro devices h x hx
      exact ih (lwStep devices e) (lwStep_status devices e h) x hx

/-- Claim C7 amended: the LwM2M server records the declared lifetime but
never evaluates it — no handler and no sweep ever marks a device `stale` or
`offline`; every record reachable from any message trace has status
`"registered"` (set by a registration) or `"active"` (set by an update), no
matter how much time passed since its last update. -/
theorem C7_amended_theorem {β : Type} (trace : List (LwEvent β × Nat))
    (id : String) (dev : LwDevice β) (h : lookupA (lwRun trace) id = some dev) :
    dev.status = "registered" ∨ dev.status = "active" :=
  lw_status_inv trace (id, dev) (lookupA_mem h)

/-- Witness for C7: the amended theorem applied to the one-registration
trace. -/
theorem C7_amended_witness :
    lwDevB.status = "registered" ∨ lwDevB.status = "active" :=
  C7_amended_theorem lwTrace0 "dev-B" lwDevB (by decide)

/-! ## C8 — deregistration -/

/-- Formalisation of claim C8 at one input: after an explicit deregistration
the record is retained with status `offline`, its other fields (witnessed by
the object tree) unchanged. -/
def claimC8At {β : Type} (devices : List (String × LwDevice β)) (id : String) : Prop :=
  ((lookupA (handleDeregistration devices id) id).map (fun d => d.status) =
      some "offline") ∧
    ((lookupA (handleDeregistration devices id) id).map (fun d => d.objects) =
      (lookupA devices id).map (fun d => d.objects))

/-- Claim C8 is false on the code: deregistering the registered device
`dev-B` deletes its record from the table (`del self.devices[device_id]`), so
no record with status `offline` remains. -/
theorem C8_counterexample : ¬ claimC8At lwDevices0 "dev-B" := by
  intro h
  exact absurd h.1 (by decide)

/-- Claim C8 amended: an explicit deregistration REMOVES the device's record
from the registration table entirely (for a duplicate-free table the lookup
afterwards is `none`); records of other devices are untouched. -/
theorem C8_amended_theorem {β : Type} (devices : List (String × LwDevice β))
    (id : String) (hnd : (devices.map Prod.fst).Nodup) :
    lookupA (handleDeregistration devices id) id = none ∧
      ∀ k, k ≠ id → lookupA (handleDeregistration devices id) k = lookupA devices k := by
  unfold handleDeregistration
  cases hl : lookupA devices id with
  | none => exact ⟨hl, fun k _ => rfl⟩
  | some d =>
      exact ⟨lookupA_eraseA_self devices id hnd,
        fun k hk => lookupA_eraseA_ne devices id k (fun hc => hk hc.symm)⟩

/-- Witness for C8: the amended theorem applied to the concrete table
`lwDevices0`. -/
theorem C8_amended_witness :
    lookupA (handleDeregistration lwDevices0 "dev-B") "dev-B" = none :=
  (C8_amended_theorem lwDevices0 "dev-B" (by decide)).1

/-! ## C9 — bulk batching -/

/-- Claim C9: in bulk mode an envelope is emitted exactly when the batch
(including the operation created this iteration) reaches `bulk_size = 10` or
`bulk_interval = 50` ms has elapsed since the last emission; an emitted
envelope carries the whole batch, its count and the emission instant; a batch
reaching exactly 10 emits immediately, and a single pending operation with
the interval elapsed emits alone; over any run, the emitted envelopes list
the operations in creation order (their concatenation followed by the final
pending batch is exactly the operation stream). -/
theorem C9_theorem :
    (∀ (op : Type) (d : String) (s : BulkState op) (t : Nat) (o : op),
      ((bulkStep d s t o).2 ≠ none ↔
          10 ≤ s.pending.length + 1 ∨ 50 ≤ t - s.lastSend) ∧
        (∀ e, (bulkStep d s t o).2 = some e →
          e.bulk_operations = s.pending ++ [o] ∧
            e.bulk_size = s.pending.length + 1 ∧ e.timestamp = t) ∧
        (s.pending.length = 9 →
          (bulkStep d s t o).2 = some ⟨s.pending ++ [o], d, 10, t⟩) ∧
        (s.pending = [] → 50 ≤ t - s.lastSend →
          (bulkStep d s t o).2 = some ⟨[o], d, 1, t⟩)) ∧
      (∀ (op : Type) (d : String) (s : BulkState op) (steps : List (Nat × op)),
        ((bulkRun d s steps).2.map (fun e => e.bulk_operations)).flatten ++
            (bulkRun d s steps).1.pending = s.pending ++ steps.map Prod.snd) := by
  constructor
  · intro op d s t o
    refine ⟨?_, ?_, ?_, ?_⟩
    · simp only [bulkStep]
      split
      case isTrue hc => simpa [List.length_append] using hc
      case isFalse hc => simpa [List.length_append] using hc
    · intro e he
      simp only [bulkStep] at he
      split at he
      case isTrue hc =>
          cases he
          exact ⟨rfl, by simp, rfl⟩
      case isFalse hc => cases he
    · intro h9
      simp only [bulkStep]
      rw [if_pos (Or.inl (by simp [List.length_append, h9]))]
      simp [List.length_append, h9]
    · intro hp ht
      simp only [bulkStep]
      rw [if_pos (Or.inr ht)]
      simp [hp]
  · intro op d s steps
    induction steps generalizing s with
    | nil => simp [bulkRun]
    | cons st rest ih =>
        obtain ⟨t, o⟩ := st
        simp only [bulkRun, bulkStep]
        split
        case isTrue hc =>
            have h := ih ⟨[], t⟩
            simp only at h
            simp [h, List.append_assoc]
        case isFalse hc =>
            have h := ih ⟨s.pending ++ [o], s.lastSend⟩
            simp only at h
            simp [h, List.append_assoc]

/-- Witness for C9: a batch of 9 pending operations emits on the 10th, and a
single operation emits once 50 ms elapsed. -/
theorem C9_witness :
    (bulkStep "dev-C" (⟨["a", "b", "c", "d", "e", "f", "g", "h", "i"], 0⟩ : BulkState String)
        10 "j").2 =
        some ⟨["a", "b", "c", "d", "e", "f", "g", "h", "i", "j"], "dev-C", 10, 10⟩ ∧
      (bulkStep "dev-C" (⟨[], 0⟩ : BulkState String) 50 "k").2 =
        some ⟨["k"], "dev-C", 1, 50⟩ := by
  constructor
  · exact (C9_theorem.1 String "dev-C" ⟨["a", "b", "c", "d", "e", "f", "g", "h", "i"], 0⟩
      10 "j").2.2.1 (by decide)
  · exact (C9_theorem.1 String "dev-C" ⟨[], 0⟩ 50 "k").2.2.2 rfl (by decide)

end IOTUnified
